import Mathlib

/-!
Shallow embedding of the Lit-Protocol signer adapter.

This file embeds `src/packages/signers/src/lit-protocol/signer.ts`
(class `LitSigner`) in Lean 4 and proves/refutes the frozen claims
about it.

Modelling decisions:

* A JavaScript object is a list of (key, value) pairs in insertion
  order (`JSObj`); values are a small inductive `JSVal` covering the
  shapes the code reads (`authMethodType` is a number, `accessToken`
  a string).  `Object.keys` is the list of first components and
  `Array.prototype.indexOf` returns `-1 : Int` when absent, as in JS.
* External collaborators (`LitNodeClient.connect`,
  `LitNodeClient.getSessionSigs`, `PKPEthersWallet.init`,
  `generateSessionKeyPair`, the signing results of the wallet,
  `Date.now()`) are opaque; their outcomes for one call are supplied
  by an `Env` record, so one `Env` value fixes one concrete execution.
* `JSON.parse` applied to the access token is external; its result is
  represented symbolically by `AuthSig.ofJson` applied to the source
  text, which is all the claims inspect.
* `new Date(ms).toISOString()` is represented symbolically by the
  constructor `ExpirationArg.isoOfEpochMs ms`, keeping the numeric
  epoch value observable.
* The chain metadata table `ALL_LIT_CHAINS` (external constant) is a
  parameter `chains : ChainTable`; an entry may lack a `chainId`
  field (`Option Int`).  Reading `.chainId` of a missing entry is the
  JS `TypeError` the code would throw.
* The observable network interaction of one call is returned as a
  `List NetCall` trace alongside the result and the post-state.
-/

namespace LitSignerModel

/-- JavaScript runtime values, restricted to the shapes the adapter reads. -/
inductive JSVal where
  | num (n : Int)
  | str (s : String)
  | bool (b : Bool)
deriving DecidableEq, Repr

/-- A JavaScript object: fields in insertion order. -/
abbrev JSObj := List (String × JSVal)

/-- `Object.keys(o)`: the field names in insertion order. -/
def jsKeys (o : JSObj) : List String := o.map Prod.fst

/-- `Array.prototype.indexOf` on a list of strings: index of the first
occurrence, `-1` if absent. -/
def jsIndexOf : List String → String → Int
  | [], _ => -1
  | k :: ks, key =>
    if k = key then 0
    else
      let r := jsIndexOf ks key
      if r = -1 then -1 else r + 1

/-- Property read `o.k`: value of the first field named `k`, `none` when
the field is absent (JS `undefined`). -/
def jsGet (o : JSObj) (k : String) : Option JSVal :=
  (o.find? (fun p => p.1 = k)).map Prod.snd

/-- The branch condition of `_doAuthentication` (signer.ts line 136):
`Object.keys(props.context).indexOf("accessToken") > 0`. -/
def takesRawBranch (ctx : JSObj) : Bool :=
  jsIndexOf (jsKeys ctx) "accessToken" > 0

/-- Session key pair as produced by `generateSessionKeyPair()`. -/
structure SessionKeyPair where
  publicKey : String
  secretKey : String
deriving DecidableEq, Repr

/-- `AuthSig`: the claims only inspect that it is the parse of the
access-token text, so the parse is kept symbolic. -/
inductive AuthSig where
  | ofJson (source : String)
deriving DecidableEq, Repr

/-- Coercion the code performs in `props.context.accessToken as string`
followed by `JSON.parse`: extract the string text of the JS value. -/
def jsValText : Option JSVal → String
  | some (.str s) => s
  | some (.num n) => toString n
  | some (.bool b) => toString b
  | none => "undefined"

/-- Errors observable from the adapter. `externalErr` models an error
object produced by a collaborator (network, wallet), carried unchanged. -/
inductive Err where
  | notAuthenticated
  | signerNotInit
  | typeError (msg : String)
  | externalErr (msg : String)
deriving DecidableEq, Repr

/-- One entry of the external chain table; the code only reads
`chainId`, which the entry may lack. -/
structure ChainInfo where
  chainId : Option Int
deriving DecidableEq, Repr

/-- The external `ALL_LIT_CHAINS` table: chain name to entry, `none`
when the name is not a key of the table. -/
abbrev ChainTable := String → Option ChainInfo

/-- `new LitPKPResource("*")`. -/
structure LitPKPResource where
  resourceId : String
deriving DecidableEq, Repr

/-- One element of `resourceAbilityRequests`. -/
structure ResourceAbilityRequest where
  resource : LitPKPResource
  ability : String
deriving DecidableEq, Repr

/-- `LitAbility.PKPSigning` (external constant, kept symbolic). -/
def litAbilityPKPSigning : String := "pkp-signing"

/-- The `resourceAbilities` array built at signer.ts lines 137-142. -/
def resourceAbilities : List ResourceAbilityRequest :=
  [{ resource := { resourceId := "*" }, ability := litAbilityPKPSigning }]

/-- Parameters the network passes to the `authNeededCallback`. -/
structure AuthCallbackParams where
  statement : Option String
  expiration : Option String
  resources : List String
deriving DecidableEq, Repr

/-- The request object passed to `this.inner.signSessionKey` inside the
callback (signer.ts lines 151-159 / 164-172).  Optional fields are
`none` when the corresponding property is not in the object literal. -/
structure SignSessionKeyRequest where
  statement : Option String
  sessionKey : Option SessionKeyPair
  authMethods : List JSObj
  authSig : Option AuthSig
  pkpPublicKey : String
  expiration : Option String
  resources : List String
  chainId : Int
deriving DecidableEq, Repr

/-- The `expiration` argument of `getSessionSigs`: either the string of the caller or `new Date(epochMs).toISOString()` kept symbolic. -/
inductive ExpirationArg where
  | supplied (s : String)
  | isoOfEpochMs (epochMs : Nat)
deriving DecidableEq, Repr

/-- The request object passed to `this.inner.getSessionSigs`
(signer.ts lines 181-190); the callback is the function the code
builds, recorded as the request it would send for given params. -/
structure GetSessionSigsRequest where
  chain : String
  expiration : ExpirationArg
  resourceAbilityRequests : List ResourceAbilityRequest
  authNeededCallback : AuthCallbackParams → SignSessionKeyRequest

/-- Observable external calls made during one `authenticate`. -/
inductive NetCall where
  | connect
  | getSessionSigs (req : GetSessionSigsRequest)
  | walletInit

/-- `new PKPEthersWallet({...})` argument record. -/
structure PKPEthersWallet where
  pkpPubKey : String
  rpc : String
  controllerSessionSigs : JSObj
deriving DecidableEq, Repr

/-- Constructor configuration (`LitConfig`). -/
structure LitConfig where
  pkpPublicKey : String
  rpcUrl : String
deriving DecidableEq, Repr

/-- The mutable fields of a `LitSigner` instance, plus the readiness
flag of the inner `LitNodeClient`. -/
structure SignerState where
  signer : Option PKPEthersWallet
  _authContext : Option JSObj
  session : Option JSObj
  innerReady : Bool
deriving DecidableEq, Repr

/-- State right after the constructor: `signer`, `_authContext` and
`session` are `undefined`; the inner client may or may not already be
connected (a pre-built client can be passed in). -/
def initialState (ready : Bool) : SignerState :=
  { signer := none, _authContext := none, session := none, innerReady := ready }

/-- `authenticate` input (`LitAuthenticateProps`): only `context` is
required. -/
structure LitAuthenticateProps where
  context : JSObj
  sessionKeypair : Option SessionKeyPair
  chain : Option String
  expiration : Option String
deriving DecidableEq, Repr

/-- Outcomes of the external collaborators for one `authenticate` call. -/
structure Env where
  now : Nat
  generatedKeypair : SessionKeyPair
  connectResult : Except Err Unit
  getSessionSigsResult : Except Err JSObj
  initResult : Except Err Unit

/-- The `authNeededCallback` built at signer.ts lines 148-175, as the
`signSessionKey` request it sends for given callback params.  The
discriminator test is `props.context?.authMethodType === 1`. -/
def buildSignSessionKeyRequest (pkpPublicKey : String) (ctx : JSObj)
    (sessionKeypair : SessionKeyPair) (chainId : Int)
    (params : AuthCallbackParams) : SignSessionKeyRequest :=
  if jsGet ctx "authMethodType" = some (.num 1) then
    { statement := params.statement
      sessionKey := none
      authMethods := [ctx]
      authSig := some (.ofJson (jsValText (jsGet ctx "accessToken")))
      pkpPublicKey := "0x" ++ pkpPublicKey
      expiration := params.expiration
      resources := params.resources
      chainId := chainId }
  else
    { statement := params.statement
      sessionKey := some sessionKeypair
      authMethods := [ctx]
      authSig := none
      pkpPublicKey := "0x" ++ pkpPublicKey
      expiration := params.expiration
      resources := params.resources
      chainId := chainId }

/-- The `expiration` sent to `getSessionSigs` (signer.ts lines 184-187):
`props.expiration ?? new Date(Date.now() + 60 * 60 * 24 * 7).toISOString()`. -/
def getSessionSigsExpiration (props : LitAuthenticateProps) (now : Nat) :
    ExpirationArg :=
  match props.expiration with
  | some e => .supplied e
  | none => .isoOfEpochMs (now + 60 * 60 * 24 * 7)

/-- Continuation of the raw auth-method branch after the connect step:
the `getSessionSigs` call with its `.catch` rethrow, the three field
assignments and `signer.init()` (signer.ts lines 181-204).  `st1` is
the state after the connect step, `pre` the trace so far. -/
def rawBranchGetSessionSigs (cfg : LitConfig) (env : Env)
    (props : LitAuthenticateProps)
    (callback : AuthCallbackParams → SignSessionKeyRequest)
    (chain : String) (st1 : SignerState) (pre : List NetCall) :
    Except Err Unit × SignerState × List NetCall :=
  let req : GetSessionSigsRequest :=
    { chain := chain
      expiration := getSessionSigsExpiration props env.now
      resourceAbilityRequests := resourceAbilities
      authNeededCallback := callback }
  match env.getSessionSigsResult with
  | .error err =>
    -- `.catch((err) => { throw err; })` rethrows the same error object
    (.error err, st1, pre ++ [.getSessionSigs req])
  | .ok sessionSigs =>
    let st2 : SignerState :=
      { st1 with
        _authContext := some props.context
        session := some sessionSigs
        signer := some
          { pkpPubKey := cfg.pkpPublicKey
            rpc := cfg.rpcUrl
            controllerSessionSigs := sessionSigs } }
    match env.initResult with
    | .error e => (.error e, st2, pre ++ [.getSessionSigs req, .walletInit])
    | .ok _ => (.ok (), st2, pre ++ [.getSessionSigs req, .walletInit])

/-- The chain selection `props.chain || "ethereum"` (signer.ts line
144).  The JS `||` falls back on any falsy value, so both an absent
chain and a supplied empty chain string select `"ethereum"`. -/
def chainOrDefault : Option String → String
  | none => "ethereum"
  | some c => if c = "" then "ethereum" else c

/-- `_doAuthentication` (signer.ts lines 129-217).  Returns the result of the call, the post-state, and the trace of external calls made. -/
def doAuthentication (chains : ChainTable) (cfg : LitConfig) (env : Env)
    (st : SignerState) (props : LitAuthenticateProps) :
    Except Err Unit × SignerState × List NetCall :=
  if takesRawBranch props.context then
    -- raw auth-method branch
    -- `props.sessionKeypair || generateSessionKeyPair()`: a keypair
    -- object is always truthy, so this `||` is exactly `getD`
    let sessionKeypair := props.sessionKeypair.getD env.generatedKeypair
    let chain := chainOrDefault props.chain
    match chains chain with
    | none =>
      -- `ALL_LIT_CHAINS[chain]` is undefined: reading `.chainId` throws
      (.error (.typeError "Cannot read properties of undefined (reading chainId)"),
        st, [])
    | some chainInfo =>
      let callback :=
        buildSignSessionKeyRequest cfg.pkpPublicKey props.context sessionKeypair
          (chainInfo.chainId.getD 1)
      -- `if (!this.inner.ready) await this.inner.connect();`
      match st.innerReady, env.connectResult with
      | true, _ =>
        rawBranchGetSessionSigs cfg env props callback chain st []
      | false, .ok _ =>
        rawBranchGetSessionSigs cfg env props callback chain
          { st with innerReady := true } [.connect]
      | false, .error e => (.error e, st, [.connect])
  else
    -- pre-issued session branch: the context itself becomes the session
    let st2 : SignerState :=
      { st with
        _authContext := some props.context
        session := some props.context
        signer := some
          { pkpPubKey := cfg.pkpPublicKey
            rpc := cfg.rpcUrl
            controllerSessionSigs := props.context } }
    match env.initResult with
    | .error e => (.error e, st2, [.walletInit])
    | .ok _ => (.ok (), st2, [.walletInit])

/-- `authenticate` (signer.ts lines 63-77). -/
def authenticate (chains : ChainTable) (cfg : LitConfig) (env : Env)
    (st : SignerState) (props : LitAuthenticateProps) :
    Except Err JSObj × SignerState × List NetCall :=
  match st.session with
  | some s =>
    -- `if (!this.session)` is false: skip `_doAuthentication`
    (.ok s, st, [])
  | none =>
    match doAuthentication chains cfg env st props with
    | (.error e, st1, trace) => (.error e, st1, trace)
    | (.ok _, st1, trace) =>
      match st1.session with
      | none => (.error .notAuthenticated, st1, trace)
      | some s => (.ok s, st1, trace)

/-- `_checkInternals` (signer.ts lines 107-115). -/
def checkInternals (st : SignerState) : Except Err Unit :=
  if st._authContext.isNone then .error .notAuthenticated
  else if st.signer.isNone then .error .signerNotInit
  else .ok ()

/-- `getAuthDetails` (signer.ts lines 79-82): after the internals check,
returns `this._authContext` (cast, not converted). -/
def getAuthDetails (st : SignerState) : Except Err JSObj :=
  match checkInternals st with
  | .error e => .error e
  | .ok _ => .ok (st._authContext.getD [])

/-- `getAddress` (signer.ts lines 84-89): after the internals check,
delegates to the wallet handle, whose answer is external. -/
def getAddress (st : SignerState) (walletAddress : String) :
    Except Err String :=
  match checkInternals st with
  | .error e => .error e
  | .ok _ => .ok walletAddress

/-- `signMessage` (signer.ts lines 91-95): after the internals check,
delegates to the wallet handle. -/
def signMessage (st : SignerState) (walletSignature : String) :
    Except Err String :=
  match checkInternals st with
  | .error e => .error e
  | .ok _ => .ok walletSignature

/-- `signTypedData` (signer.ts lines 97-105): after the internals check,
delegates to the wallet handle. -/
def signTypedData (st : SignerState) (walletSignature : String) :
    Except Err String :=
  match checkInternals st with
  | .error e => .error e
  | .ok _ => .ok walletSignature

/-- States an adapter instance can be in: the post-constructor state, or
the state after any further `authenticate` call (with arbitrary
external outcomes).  The signing methods assign no field, so they do
not appear as state transitions. -/
inductive Reachable (chains : ChainTable) (cfg : LitConfig) : SignerState → Prop where
  | init (b : Bool) : Reachable chains cfg (initialState b)
  | step (st : SignerState) (env : Env) (props : LitAuthenticateProps) :
      Reachable chains cfg st →
      Reachable chains cfg (authenticate chains cfg env st props).2.1

/-! ### Concrete example data used by closed theorems and witnesses -/

/-- Example constructor configuration. -/
def cfgEx : LitConfig :=
  { pkpPublicKey := "04deadbeef", rpcUrl := "https://rpc.example" }

/-- Example chain table: only `"ethereum"` is a key, with chain id 1. -/
def chainsEx : ChainTable :=
  fun c => if c = "ethereum" then some { chainId := some 1 } else none

/-- Example chain table with no keys at all. -/
def chainsNone : ChainTable := fun _ => none

/-- Example session key pair. -/
def kpEx : SessionKeyPair := { publicKey := "sesspub", secretKey := "sesssec" }

/-- Example session-signatures map returned by the network. -/
def sigsEx : JSObj := [("https://node.example", .str "sig")]

/-- Example raw auth-method context: `authMethodType` first, so
`accessToken` sits at index 1. -/
def ctxRaw : JSObj := [("authMethodType", .num 6), ("accessToken", .str "tok")]

/-- Example raw auth-method context with `accessToken` as the first
key (index 0). -/
def ctxTokenFirst : JSObj := [("accessToken", .str "tok"), ("authMethodType", .num 6)]

/-- Example `authenticate` props carrying the raw auth-method context,
with no caller-supplied keypair, chain or expiration. -/
def propsRaw : LitAuthenticateProps :=
  { context := ctxRaw, sessionKeypair := none, chain := none, expiration := none }

/-- Example environment where every external call succeeds. -/
def envOk : Env :=
  { now := 1700000000000
    generatedKeypair := kpEx
    connectResult := .ok ()
    getSessionSigsResult := .ok sigsEx
    initResult := .ok () }

/-- Example environment where only `signer.init()` fails. -/
def envInitFail : Env :=
  { envOk with initResult := .error (.externalErr "init failed") }

/-- Example environment where `getSessionSigs` rejects. -/
def envSigsFail : Env :=
  { envOk with getSessionSigsResult := .error (.externalErr "node quorum failed") }

/-- Example callback params, as the network would pass them. -/
def paramsEx : AuthCallbackParams :=
  { statement := some "st", expiration := some "2026-01-01T00:00:00Z"
    resources := ["res"] }

/-- Example props whose context is a pre-issued session-signatures map. -/
def propsSess : LitAuthenticateProps :=
  { context := sigsEx, sessionKeypair := none, chain := none, expiration := none }

/-- Example already-authenticated state. -/
def stAuthEx : SignerState :=
  { signer := some { pkpPubKey := "04deadbeef", rpc := "https://rpc.example",
                     controllerSessionSigs := sigsEx }
    _authContext := some ctxRaw, session := some sigsEx, innerReady := true }

/-- Example chain table whose only entry lacks a `chainId` field. -/
def chainsNoId : ChainTable :=
  fun c => if c = "ethereum" then some { chainId := none } else none

/-- Example props supplying the empty string as the chain name. -/
def propsEmptyChain : LitAuthenticateProps :=
  { context := ctxRaw, sessionKeypair := none, chain := some "",
    expiration := none }

/-- Example props supplying a chain name that is not a table key. -/
def propsUnknownChain : LitAuthenticateProps :=
  { context := ctxRaw, sessionKeypair := none, chain := some "solana",
    expiration := none }


theorem doAuthentication_state_cases (chains : ChainTable) (cfg : LitConfig)
    (env : Env) (st : SignerState) (props : LitAuthenticateProps) :
    ((doAuthentication chains cfg env st props).2.1.session = st.session ∧
     (doAuthentication chains cfg env st props).2.1._authContext = st._authContext ∧
     (doAuthentication chains cfg env st props).2.1.signer = st.signer ∧
     ∃ e, (doAuthentication chains cfg env st props).1 = .error e) ∨
    (∃ sigs, (doAuthentication chains cfg env st props).2.1.session = some sigs ∧
     (doAuthentication chains cfg env st props).2.1._authContext = some props.context ∧
     (doAuthentication chains cfg env st props).2.1.signer =
       some { pkpPubKey := cfg.pkpPublicKey, rpc := cfg.rpcUrl,
              controllerSessionSigs := sigs } ∧
     (takesRawBranch props.context = false → sigs = props.context)) := by
  obtain ⟨now, kp, cres, gres, ires⟩ := env
  obtain ⟨sg, ac, ss, ready⟩ := st
  cases hb : takesRawBranch props.context
  · cases ires <;> simp [doAuthentication, hb]
  · cases hc : chains (chainOrDefault props.chain) <;>
      cases ready <;> cases cres <;> cases gres <;> cases ires <;>
        simp [doAuthentication, rawBranchGetSessionSigs, hb, hc]

theorem authenticate_session_some (chains : ChainTable) (cfg : LitConfig)
    (env : Env) (st : SignerState) (props : LitAuthenticateProps) (s : JSObj)
    (h : st.session = some s) :
    authenticate chains cfg env st props = (.ok s, st, []) := by
  unfold authenticate
  rw [h]

theorem authenticate_state_cases (chains : ChainTable) (cfg : LitConfig)
    (env : Env) (st : SignerState) (props : LitAuthenticateProps)
    (h0 : st.session = none) :
    ((authenticate chains cfg env st props).2.1.session = st.session ∧
     (authenticate chains cfg env st props).2.1._authContext = st._authContext ∧
     (authenticate chains cfg env st props).2.1.signer = st.signer) ∨
    ((authenticate chains cfg env st props).2.1.session.isSome = true ∧
     (authenticate chains cfg env st props).2.1._authContext.isSome = true ∧
     (authenticate chains cfg env st props).2.1.signer.isSome = true) := by
  have hm := doAuthentication_state_cases chains cfg env st props
  unfold authenticate
  rw [h0]
  rcases hda : doAuthentication chains cfg env st props with ⟨res, stout, trace⟩
  rw [hda] at hm
  dsimp at hm ⊢
  rcases res with e | u
  · dsimp
    rcases hm with ⟨hs, ha, hg, _⟩ | ⟨sigs, hs, ha, hg, _⟩
    · left; exact ⟨hs.trans h0, ha, hg⟩
    · right; simp [hs, ha, hg]
  · rcases hm with ⟨hs, ha, hg, e, he⟩ | ⟨sigs, hs, ha, hg, _⟩
    · simp at he
    · rcases hss : stout.session with _ | s0
      · rw [hss] at hs; simp at hs
      · dsimp
        right
        simp [hss, ha, hg]

theorem authenticate_ok_fields (chains : ChainTable) (cfg : LitConfig) (env : Env)
    (st : SignerState) (props : LitAuthenticateProps) (s : JSObj)
    (h0 : st.session = none)
    (hok : (authenticate chains cfg env st props).1 = .ok s) :
    (authenticate chains cfg env st props).2.1.session = some s ∧
    (authenticate chains cfg env st props).2.1._authContext = some props.context ∧
    (authenticate chains cfg env st props).2.1.signer =
      some { pkpPubKey := cfg.pkpPublicKey, rpc := cfg.rpcUrl,
             controllerSessionSigs := s } ∧
    (takesRawBranch props.context = false → s = props.context) := by
  have hm := doAuthentication_state_cases chains cfg env st props
  unfold authenticate at hok ⊢
  rw [h0] at hok ⊢
  rcases hda : doAuthentication chains cfg env st props with ⟨res, stout, trace⟩
  rw [hda] at hok hm
  dsimp at hm
  rcases res with e | u
  · simp at hok
  · rcases hss : stout.session with _ | s0
    · simp [hss] at hok
    · simp [hss] at hok ⊢
      subst hok
      rcases hm with ⟨hs, ha, hg, e, he⟩ | ⟨sigs, hs, ha, hg, hb⟩
      · simp at he
      · rw [hss] at hs
        simp only [Option.some.injEq] at hs
        subst hs
        exact ⟨rfl, ha, hg, hb⟩


/-- Claim C1: a context object that does contain an access-token field, but as
its first key, is routed to the pre-issued session branch: no
`getSessionSigs` call appears in the trace and the auth-method object
itself is stored as the session, because line 136 tests
`indexOf("accessToken") > 0` instead of presence. -/
theorem C1_accessToken_first_key_skips_raw_branch :
    ("accessToken" ∈ jsKeys ctxTokenFirst) ∧
    takesRawBranch ctxTokenFirst = false ∧
    (authenticate chainsEx cfgEx envOk (initialState true)
        { context := ctxTokenFirst, sessionKeypair := none, chain := none,
          expiration := none }).2.2 = [NetCall.walletInit] ∧
    (authenticate chainsEx cfgEx envOk (initialState true)
        { context := ctxTokenFirst, sessionKeypair := none, chain := none,
          expiration := none }).2.1.session = some ctxTokenFirst := by
  refine ⟨by decide, by decide, rfl, rfl⟩

/-- Claim C2: in the raw branch with no caller-supplied expiration, the
`getSessionSigs` request carries `new Date(Date.now() + 604800)`:
the added offset is 604800 milliseconds (about ten minutes), not the
604800000 milliseconds of the claimed seven days. -/
theorem C2_default_expiration_offset_is_604800_ms :
    (∃ req rest,
      (doAuthentication chainsEx cfgEx envOk (initialState true) propsRaw).2.2 =
        NetCall.getSessionSigs req :: rest ∧
      req.expiration = .isoOfEpochMs (envOk.now + 60 * 60 * 24 * 7) ∧
      envOk.now + 60 * 60 * 24 * 7 = envOk.now + 604800) ∧
    (604800 : Nat) ≠ 604800000 := by
  refine ⟨⟨_, _, rfl, rfl, rfl⟩, by norm_num⟩

/-- Counterexample for claim C3: with `getSessionSigs` succeeding and
`signer.init()` failing, `authenticate` rejects yet leaves `session`,
`_authContext` and `signer` all set — not the pre-call state. -/
theorem C3_init_failure_leaves_credentials_set :
    (authenticate chainsEx cfgEx envInitFail (initialState true) propsRaw).1 =
      .error (.externalErr "init failed") ∧
    (authenticate chainsEx cfgEx envInitFail (initialState true) propsRaw).2.1.session =
      some sigsEx ∧
    (authenticate chainsEx cfgEx envInitFail (initialState true) propsRaw).2.1._authContext =
      some ctxRaw ∧
    (authenticate chainsEx cfgEx envInitFail (initialState true) propsRaw).2.1.signer.isSome =
      true := by
  refine ⟨rfl, rfl, rfl, rfl⟩

/-- Claim C3 as amended: from the pre-authentication state, `authenticate`
either leaves `session`, `_authContext` and `signer` all unset (and
rejects), or sets all three; a rejection caused by `signer.init()`
falls in the second case, so no state mixes set and unset fields. -/
theorem C3_amended_no_mixed_state (chains : ChainTable) (cfg : LitConfig)
    (env : Env) (st : SignerState) (props : LitAuthenticateProps)
    (h1 : st.session = none) (h2 : st._authContext = none) (h3 : st.signer = none) :
    ((authenticate chains cfg env st props).2.1.session = none ∧
     (authenticate chains cfg env st props).2.1._authContext = none ∧
     (authenticate chains cfg env st props).2.1.signer = none ∧
     ∃ e, (authenticate chains cfg env st props).1 = .error e) ∨
    ((authenticate chains cfg env st props).2.1.session.isSome = true ∧
     (authenticate chains cfg env st props).2.1._authContext.isSome = true ∧
     (authenticate chains cfg env st props).2.1.signer.isSome = true) := by
  have hm := doAuthentication_state_cases chains cfg env st props
  unfold authenticate
  rw [h1]
  rcases hda : doAuthentication chains cfg env st props with ⟨res, stout, trace⟩
  rw [hda] at hm
  dsimp at hm
  rcases res with e | u
  · rcases hm with ⟨hs, ha, hg, _⟩ | ⟨sigs, hs, ha, hg, _⟩
    · left
      exact ⟨hs.trans h1, ha.trans h2, hg.trans h3, e, rfl⟩
    · right
      simp [hs, ha, hg]
  · rcases hm with ⟨hs, ha, hg, e, he⟩ | ⟨sigs, hs, ha, hg, _⟩
    · simp at he
    · rcases hss : stout.session with _ | s0
      · rw [hss] at hs; simp at hs
      · right
        simp [hss, ha, hg]

/-- Witness for the amended claim C3: at the concrete init-failure run the second
disjunct holds. -/
theorem C3_amended_no_mixed_state_witness :
    (((authenticate chainsEx cfgEx envInitFail (initialState true) propsRaw).2.1.session = none ∧
      (authenticate chainsEx cfgEx envInitFail (initialState true) propsRaw).2.1._authContext = none ∧
      (authenticate chainsEx cfgEx envInitFail (initialState true) propsRaw).2.1.signer = none ∧
      ∃ e, (authenticate chainsEx cfgEx envInitFail (initialState true) propsRaw).1 = .error e) ∨
     ((authenticate chainsEx cfgEx envInitFail (initialState true) propsRaw).2.1.session.isSome = true ∧
      (authenticate chainsEx cfgEx envInitFail (initialState true) propsRaw).2.1._authContext.isSome = true ∧
      (authenticate chainsEx cfgEx envInitFail (initialState true) propsRaw).2.1.signer.isSome = true)) :=
  C3_amended_no_mixed_state chainsEx cfgEx envInitFail (initialState true) propsRaw rfl rfl rfl

/-- Counterexample for claim C4: a successful raw-branch `authenticate` returns
the network-issued session map, but a subsequent `getAuthDetails`
returns the stored raw auth-method context, a different object. -/
theorem C4_getAuthDetails_differs_from_returned_sigs :
    (authenticate chainsEx cfgEx envOk (initialState true) propsRaw).1 = .ok sigsEx ∧
    getAuthDetails (authenticate chainsEx cfgEx envOk (initialState true) propsRaw).2.1 =
      .ok ctxRaw ∧
    sigsEx ≠ ctxRaw := by
  refine ⟨rfl, rfl, by decide⟩

/-- Claim C4 as amended: after a successful `authenticate` from the
pre-authentication state, `getAuthDetails` returns the supplied
`props.context`; only in the pre-issued session branch is that the
same object as the mapping `authenticate` returned. -/
theorem C4_amended_getAuthDetails_returns_context (chains : ChainTable)
    (cfg : LitConfig) (env : Env) (st : SignerState)
    (props : LitAuthenticateProps) (s : JSObj)
    (h0 : st.session = none)
    (hok : (authenticate chains cfg env st props).1 = .ok s) :
    getAuthDetails (authenticate chains cfg env st props).2.1 = .ok props.context ∧
    (takesRawBranch props.context = false → s = props.context) := by
  obtain ⟨hs, ha, hg, hb⟩ := authenticate_ok_fields chains cfg env st props s h0 hok
  constructor
  · simp [getAuthDetails, checkInternals, ha, hg]
  · exact hb

/-- Witness for the amended claim C4: the pre-issued branch at concrete input. -/
theorem C4_amended_getAuthDetails_returns_context_witness :
    (getAuthDetails (authenticate chainsEx cfgEx envOk (initialState true) propsSess).2.1 =
      .ok propsSess.context ∧
     (takesRawBranch propsSess.context = false → sigsEx = propsSess.context)) :=
  C4_amended_getAuthDetails_returns_context chainsEx cfgEx envOk (initialState true)
    propsSess sigsEx rfl rfl


/-- Claim C5: if `getSessionSigs` rejects, `authenticate` rejects with that
same error object, the three fields stay unset, and a subsequent
`getAddress` fails the internals check with Not Authenticated. -/
theorem C5_getSessionSigs_error_propagates_unchanged (chains : ChainTable)
    (cfg : LitConfig) (env : Env) (props : LitAuthenticateProps)
    (e : Err) (info : ChainInfo) (b : Bool) (addr : String)
    (hraw : takesRawBranch props.context = true)
    (hchain : chains (chainOrDefault props.chain) = some info)
    (hconn : env.connectResult = .ok ())
    (hsigs : env.getSessionSigsResult = .error e) :
    (authenticate chains cfg env (initialState b) props).1 = .error e ∧
    (authenticate chains cfg env (initialState b) props).2.1.session = none ∧
    (authenticate chains cfg env (initialState b) props).2.1._authContext = none ∧
    (authenticate chains cfg env (initialState b) props).2.1.signer = none ∧
    getAddress (authenticate chains cfg env (initialState b) props).2.1 addr =
      .error .notAuthenticated := by
  obtain ⟨now, kp, cres, gres, ires⟩ := env
  dsimp at hconn hsigs
  subst hconn
  subst hsigs
  cases b <;>
    simp [authenticate, doAuthentication, rawBranchGetSessionSigs, initialState,
      hraw, hchain, getAddress, checkInternals]

/-- Witness for claim C5: concrete network failure. -/
theorem C5_getSessionSigs_error_propagates_unchanged_witness :
    ((authenticate chainsEx cfgEx envSigsFail (initialState true) propsRaw).1 =
      .error (.externalErr "node quorum failed") ∧
     (authenticate chainsEx cfgEx envSigsFail (initialState true) propsRaw).2.1.session = none ∧
     (authenticate chainsEx cfgEx envSigsFail (initialState true) propsRaw).2.1._authContext = none ∧
     (authenticate chainsEx cfgEx envSigsFail (initialState true) propsRaw).2.1.signer = none ∧
     getAddress (authenticate chainsEx cfgEx envSigsFail (initialState true) propsRaw).2.1 "0xabc" =
       .error .notAuthenticated) :=
  C5_getSessionSigs_error_propagates_unchanged chainsEx cfgEx envSigsFail propsRaw
    (.externalErr "node quorum failed") { chainId := some 1 } true "0xabc"
    (by decide) (by decide) rfl rfl

/-- Counterexample for claim C6: after an `authenticate` that failed only at
`signer.init()`, the adapter has never successfully authenticated,
yet `getAddress`, `signMessage` and `getAuthDetails` pass the
internals check and delegate instead of failing. -/
theorem C6_init_failure_then_methods_delegate :
    ((authenticate chainsEx cfgEx envInitFail (initialState true) propsRaw).1 =
      .error (.externalErr "init failed")) ∧
    getAddress (authenticate chainsEx cfgEx envInitFail (initialState true) propsRaw).2.1
      "0xabc" = .ok "0xabc" ∧
    signMessage (authenticate chainsEx cfgEx envInitFail (initialState true) propsRaw).2.1
      "0xsig" = .ok "0xsig" ∧
    getAuthDetails (authenticate chainsEx cfgEx envInitFail (initialState true) propsRaw).2.1 =
      .ok ctxRaw := by
  refine ⟨rfl, rfl, rfl, rfl⟩

/-- Claim C6 as amended: on any adapter state in which `_authContext` was never
stored (fresh instance, or attempts that failed at or before the
network call), `getAddress`, `signMessage`, `signTypedData` and
`getAuthDetails` all fail with the Not Authenticated precondition
error; after an attempt that failed only at `signer.init()` the
internals check passes and the methods delegate instead. -/
theorem C6_amended_precondition_errors (st : SignerState)
    (addr sig1 sig2 : String)
    (hac : st._authContext = none) :
    getAddress st addr = .error .notAuthenticated ∧
    signMessage st sig1 = .error .notAuthenticated ∧
    signTypedData st sig2 = .error .notAuthenticated ∧
    getAuthDetails st = .error .notAuthenticated := by
  simp [getAddress, signMessage, signTypedData, getAuthDetails, checkInternals, hac]

/-- Witness for the amended claim C6: the freshly constructed state. -/
theorem C6_amended_precondition_errors_witness :
    (getAddress (initialState false) "0xabc" = .error .notAuthenticated ∧
     signMessage (initialState false) "m" = .error .notAuthenticated ∧
     signTypedData (initialState false) "t" = .error .notAuthenticated ∧
     getAuthDetails (initialState false) = .error .notAuthenticated) :=
  C6_amended_precondition_errors (initialState false) "0xabc" "m" "t" rfl

/-- Field values of the request the `authNeededCallback` sends, split
on the `authMethodType === 1` discriminator. -/
theorem buildSignSessionKeyRequest_fields (pk : String) (ctx : JSObj)
    (kp : SessionKeyPair) (cid : Int) (params : AuthCallbackParams) :
    (jsGet ctx "authMethodType" = some (.num 1) →
      (buildSignSessionKeyRequest pk ctx kp cid params).authSig =
        some (.ofJson (jsValText (jsGet ctx "accessToken"))) ∧
      (buildSignSessionKeyRequest pk ctx kp cid params).sessionKey = none) ∧
    (jsGet ctx "authMethodType" ≠ some (.num 1) →
      (buildSignSessionKeyRequest pk ctx kp cid params).sessionKey = some kp ∧
      (buildSignSessionKeyRequest pk ctx kp cid params).authSig = none) := by
  by_cases hm : jsGet ctx "authMethodType" = some (.num 1) <;>
    simp [buildSignSessionKeyRequest, hm]

/-- Claim C7: in the raw branch, the session-key-signing request the
callback sends includes the signature object parsed from the access
token and omits the session key pair exactly when the method-type
discriminator equals 1; for any other discriminator value it includes
the session key pair and omits the signature object. -/
theorem C7_signSessionKey_request_discriminator (chains : ChainTable)
    (cfg : LitConfig) (env : Env) (st : SignerState)
    (props : LitAuthenticateProps) (info : ChainInfo)
    (params : AuthCallbackParams)
    (hraw : takesRawBranch props.context = true)
    (hchain : chains (chainOrDefault props.chain) = some info)
    (hready : st.innerReady = true) :
    ∃ req rest, (doAuthentication chains cfg env st props).2.2 =
        NetCall.getSessionSigs req :: rest ∧
      (jsGet props.context "authMethodType" = some (.num 1) →
        (req.authNeededCallback params).authSig =
          some (.ofJson (jsValText (jsGet props.context "accessToken"))) ∧
        (req.authNeededCallback params).sessionKey = none) ∧
      (jsGet props.context "authMethodType" ≠ some (.num 1) →
        (req.authNeededCallback params).sessionKey =
          some (props.sessionKeypair.getD env.generatedKeypair) ∧
        (req.authNeededCallback params).authSig = none) := by
  obtain ⟨now, kp, cres, gres, ires⟩ := env
  obtain ⟨sg, ac, ss, ready⟩ := st
  dsimp at hready
  subst hready
  cases gres <;> cases ires <;>
    simp only [doAuthentication, rawBranchGetSessionSigs, hraw, hchain,
      if_true, List.nil_append] <;>
    exact ⟨_, _, rfl,
      (buildSignSessionKeyRequest_fields cfg.pkpPublicKey props.context
        (props.sessionKeypair.getD kp) (info.chainId.getD 1) params).1,
      (buildSignSessionKeyRequest_fields cfg.pkpPublicKey props.context
        (props.sessionKeypair.getD kp) (info.chainId.getD 1) params).2⟩

/-- Witness for claim C7: concrete raw-branch run (discriminator is 6, so the
second implication is the live one). -/
theorem C7_signSessionKey_request_discriminator_witness :
    (∃ req rest, (doAuthentication chainsEx cfgEx envOk (initialState true) propsRaw).2.2 =
        NetCall.getSessionSigs req :: rest ∧
      (jsGet propsRaw.context "authMethodType" = some (.num 1) →
        (req.authNeededCallback paramsEx).authSig =
          some (.ofJson (jsValText (jsGet propsRaw.context "accessToken"))) ∧
        (req.authNeededCallback paramsEx).sessionKey = none) ∧
      (jsGet propsRaw.context "authMethodType" ≠ some (.num 1) →
        (req.authNeededCallback paramsEx).sessionKey =
          some (propsRaw.sessionKeypair.getD envOk.generatedKeypair) ∧
        (req.authNeededCallback paramsEx).authSig = none)) :=
  C7_signSessionKey_request_discriminator chainsEx cfgEx envOk (initialState true)
    propsRaw { chainId := some 1 } paramsEx (by decide) (by decide) rfl

/-- Claim C8: with the session already present, `authenticate` returns the
stored credentials, changes nothing, and makes no external call at
all, whatever the input props. -/
theorem C8_authenticate_short_circuit (chains : ChainTable) (cfg : LitConfig)
    (env : Env) (st : SignerState) (props : LitAuthenticateProps) (s : JSObj)
    (h : st.session = some s) :
    authenticate chains cfg env st props = (.ok s, st, []) :=
  authenticate_session_some chains cfg env st props s h

/-- Witness for claim C8: a concrete authenticated state. -/
theorem C8_authenticate_short_circuit_witness :
    authenticate chainsEx cfgEx envOk stAuthEx propsRaw = (.ok sigsEx, stAuthEx, []) :=
  C8_authenticate_short_circuit chainsEx cfgEx envOk stAuthEx propsRaw sigsEx rfl


/-- Claim C9: at every reachable state, the Signing Handle is set exactly
when the Session Credentials are, and once the session is set any
further `authenticate` leaves the whole state untouched (nothing ever
clears it; the signing methods assign no field at all). -/
theorem C9_signer_iff_session_and_never_cleared (chains : ChainTable)
    (cfg : LitConfig) (st : SignerState) (env : Env)
    (props : LitAuthenticateProps)
    (h : Reachable chains cfg st) :
    (st.signer.isSome = st.session.isSome) ∧
    (st.session.isSome = true → (authenticate chains cfg env st props).2.1 = st) := by
  refine ⟨?_, ?_⟩
  · induction h with
    | init b => rfl
    | step st0 env0 props0 hr ih =>
      rcases h0 : st0.session with _ | s
      · rcases authenticate_state_cases chains cfg env0 st0 props0 h0 with
          ⟨hs, ha, hg⟩ | ⟨hs, ha, hg⟩
        · rw [hs, hg]; exact ih
        · rw [hs, hg]
      · rw [authenticate_session_some chains cfg env0 st0 props0 s h0]
        exact ih
  · intro hs
    obtain ⟨s, h0⟩ := Option.isSome_iff_exists.mp hs
    rw [authenticate_session_some chains cfg env st props s h0]

/-- Witness for claim C9: the state after one successful `authenticate` is
reachable; both conjuncts are checked there. -/
theorem C9_signer_iff_session_and_never_cleared_witness :
    ((authenticate chainsEx cfgEx envOk (initialState true) propsRaw).2.1.signer.isSome =
      (authenticate chainsEx cfgEx envOk (initialState true) propsRaw).2.1.session.isSome) ∧
    ((authenticate chainsEx cfgEx envOk (initialState true) propsRaw).2.1.session.isSome = true →
      (authenticate chainsEx cfgEx envOk
        (authenticate chainsEx cfgEx envOk (initialState true) propsRaw).2.1 propsRaw).2.1 =
      (authenticate chainsEx cfgEx envOk (initialState true) propsRaw).2.1) :=
  C9_signer_iff_session_and_never_cleared chainsEx cfgEx
    (authenticate chainsEx cfgEx envOk (initialState true) propsRaw).2.1 envOk propsRaw
    (Reachable.step (initialState true) envOk propsRaw (Reachable.init true))

/-- Counterexample for claim C10: the empty string, supplied as the
chain name, is not a key of the table, yet `authenticate` throws no
TypeError: the JS `||` falsy fallback remaps `""` to `"ethereum"`
before the `ALL_LIT_CHAINS` lookup, and the call proceeds to
`getSessionSigs` (with chain `"ethereum"`) and succeeds. -/
theorem C10_empty_chain_remapped_no_typeerror :
    chainsEx "" = none ∧
    (authenticate chainsEx cfgEx envOk (initialState true) propsEmptyChain).1 =
      .ok sigsEx ∧
    (∃ req rest,
      (authenticate chainsEx cfgEx envOk (initialState true) propsEmptyChain).2.2 =
        NetCall.getSessionSigs req :: rest ∧
      req.chain = "ethereum") := by
  refine ⟨rfl, rfl, _, _, rfl, rfl⟩

/-- Claim C10 as amended: in the raw branch, a supplied non-empty
chain name that is not a key of the table makes `authenticate` reject
at once with the TypeError from reading `chainId` of an undefined
entry (state untouched, no external call); a supplied empty chain
string is instead remapped to `"ethereum"` by the `||` falsy fallback
before the lookup; and when the entry exists but lacks `chainId`, the
`?? 1` fallback puts chain id 1 in the session-key-signing request. -/
theorem C10_amended_unknown_chain_typeerror_and_chainid_fallback
    (chains chains2 : ChainTable) (cfg : LitConfig) (env env2 : Env)
    (st st2 : SignerState) (props props2 : LitAuthenticateProps)
    (c : String) (info : ChainInfo) (params : AuthCallbackParams)
    (hsess : st.session = none)
    (hraw : takesRawBranch props.context = true)
    (hc : props.chain = some c) (hne : c ≠ "")
    (hchain : chains c = none)
    (hraw2 : takesRawBranch props2.context = true)
    (hready2 : st2.innerReady = true)
    (hchain2 : chains2 (chainOrDefault props2.chain) = some info)
    (hcid : info.chainId = none) :
    ((authenticate chains cfg env st props).1 =
        .error (.typeError "Cannot read properties of undefined (reading chainId)") ∧
     (authenticate chains cfg env st props).2.1 = st ∧
     (authenticate chains cfg env st props).2.2 = []) ∧
    (∃ req rest, (doAuthentication chains2 cfg env2 st2 props2).2.2 =
        NetCall.getSessionSigs req :: rest ∧
      (req.authNeededCallback params).chainId = 1) := by
  constructor
  · have hlook : chains (chainOrDefault props.chain) = none := by
      rw [hc]
      simp only [chainOrDefault]
      rw [if_neg hne]
      exact hchain
    simp [authenticate, doAuthentication, hsess, hraw, hlook]
  · obtain ⟨now, kp, cres, gres, ires⟩ := env2
    obtain ⟨sg, ac, ss, ready⟩ := st2
    dsimp at hready2
    subst hready2
    have hcb : ∀ pk kp0,
        (buildSignSessionKeyRequest pk props2.context kp0 (info.chainId.getD 1)
          params).chainId = 1 := by
      intro pk kp0
      by_cases hm : jsGet props2.context "authMethodType" = some (.num 1) <;>
        simp [buildSignSessionKeyRequest, hm, hcid]
    cases gres <;> cases ires <;>
      simp only [doAuthentication, rawBranchGetSessionSigs, hraw2, hchain2,
        if_true, List.nil_append] <;>
      exact ⟨_, _, rfl, hcb cfg.pkpPublicKey (props2.sessionKeypair.getD kp)⟩

/-- Witness for the amended claim C10: both sides concrete and live.
The TypeError side runs with the unknown non-empty chain name
`"solana"` against a table keyed only by `"ethereum"`; the fallback
side runs against a table whose `"ethereum"` entry lacks `chainId`. -/
theorem C10_amended_unknown_chain_typeerror_and_chainid_fallback_witness :
    (((authenticate chainsEx cfgEx envOk (initialState true) propsUnknownChain).1 =
        .error (.typeError "Cannot read properties of undefined (reading chainId)") ∧
      (authenticate chainsEx cfgEx envOk (initialState true) propsUnknownChain).2.1 =
        initialState true ∧
      (authenticate chainsEx cfgEx envOk (initialState true) propsUnknownChain).2.2 = []) ∧
     (∃ req rest,
       (doAuthentication chainsNoId cfgEx envOk (initialState true) propsRaw).2.2 =
         NetCall.getSessionSigs req :: rest ∧
       (req.authNeededCallback paramsEx).chainId = 1)) :=
  C10_amended_unknown_chain_typeerror_and_chainid_fallback chainsEx chainsNoId
    cfgEx envOk envOk (initialState true) (initialState true) propsUnknownChain
    propsRaw "solana" { chainId := none } paramsEx rfl (by decide) rfl
    (by decide) (by decide) (by decide) rfl (by decide) rfl

end LitSignerModel
